import Mathlib

/-!
Shallow embedding of the authentication/session core of the
flash-feather-starter application: the JWT token codec (PyJWT semantics as
used by the code), the `AuthService` token service
(src/app/services/auth_service/auth_service.py), the `AuthMiddleware`
request state machine (src/app/middlewares/auth_middleware.py), and the
thin auth endpoints (src/app/routes/api/auth/auth_api.py).

Machine-level conventions of the embedding:
* time is a natural number of seconds (PyJWT compares `exp <= now`);
* a JWT string is modelled by `TokenVal`: either a string that is not a
  structurally valid JWT (`malformed`), or a well-formed token carrying its
  payload and the secret it was signed with (`signed`) — signature
  verification is modelled as equality of that secret with the verifier's;
* Python exceptions that the code does not catch (`KeyError` from
  `payload["sub"]`, `ValueError` from `int(...)` and from passlib's
  `UnknownHashError`) are modelled by the `Except PyError` monad; exceptions
  the code catches (`jwt.ExpiredSignatureError`, `jwt.InvalidTokenError`)
  are modelled by the `Except JwtError` result of the decoder and consumed
  at the catch sites, exactly as in the source;
* Python truthiness of a cookie / header string is modelled by `pyTruthy`
  (absent or empty string is falsy, any other string truthy).
-/

/-- `AuthProvider` enum of src/app/models.py. -/
inductive AuthProvider
  | LOCAL
  | GOOGLE
deriving DecidableEq, Repr

/-- `Role` enum of src/app/models.py. -/
inductive Role
  | USER
  | ADMIN
deriving DecidableEq, Repr

/-- The `User` SQLAlchemy model of src/app/models.py. -/
structure User where
  id : Int
  name : String
  email : String
  hashed_password : String
  is_active : Bool
  auth_provider : AuthProvider
  role : Role
  profile_picture : Option String
deriving DecidableEq, Repr

/-- The JWT claim set the code builds in `AuthService.create_tokens`:
a `sub` claim (a string; `none` models a token without a `sub` claim) and
an `exp` claim (absolute expiry in seconds). -/
structure Payload where
  sub : Option String
  exp : Nat
deriving DecidableEq, Repr

/-- A candidate token string. `malformed s` is a string that is not a
structurally valid signed JWT; `signed p k` is a well-formed JWT with
payload `p` whose signature was produced with secret `k`. -/
inductive TokenVal
  | malformed (s : String)
  | signed (p : Payload) (k : String)
deriving DecidableEq, Repr

/-- The two PyJWT exception classes the service code catches.
`jwt.ExpiredSignatureError` is a subclass of `jwt.InvalidTokenError`;
the decoder reports the most specific one, catch sites decide. -/
inductive JwtError
  | ExpiredSignature
  | InvalidToken
deriving DecidableEq, Repr

/-- Python exceptions that no code in the auth core catches. -/
inductive PyError
  | KeyError
  | ValueError
deriving DecidableEq, Repr

/-- PyJWT `jwt.decode(token, secret, algorithms=["HS256"])` at time `now`:
structure is checked first (a malformed string is `InvalidTokenError`),
then the signature (wrong secret is `InvalidSignatureError`, a subclass of
`InvalidTokenError`, raised before any claim validation), then the `exp`
claim (`ExpiredSignatureError` iff `exp <= now`, zero leeway). -/
def jwtDecode (t : TokenVal) (secret : String) (now : Nat) : Except JwtError Payload :=
  match t with
  | .malformed _ => .error .InvalidToken
  | .signed p k =>
    if k ≠ secret then .error .InvalidToken
    else if p.exp ≤ now then .error .ExpiredSignature
    else .ok p

/-- Accumulator pass over the decimal digits of a Python integer
literal; any non-digit character aborts the parse. -/
def pyDigits : List Char → Nat → Option Nat
  | [], acc => some acc
  | c :: cs, acc =>
    if c.isDigit then pyDigits cs (acc * 10 + (c.toNat - 48)) else none

/-- Python `int(s)` on the string `sub` claim: `some` the parsed integer
(an optional sign followed by at least one decimal digit), `none` models
the `ValueError` Python raises on a non-numeric string. -/
def pyInt (s : String) : Option Int :=
  match s.data with
  | [] => none
  | '-' :: [] => none
  | '-' :: c :: cs => (pyDigits (c :: cs) 0).map (fun n => -(n : Int))
  | '+' :: [] => none
  | '+' :: c :: cs => (pyDigits (c :: cs) 0).map (fun n => (n : Int))
  | cs => (pyDigits cs 0).map (fun n => (n : Int))

instance {ε α : Type} [DecidableEq ε] [DecidableEq α] :
    DecidableEq (Except ε α) := fun a b =>
  match a, b with
  | .error x, .error y =>
    if h : x = y then .isTrue (by rw [h])
    else .isFalse (fun hh => h (Except.error.inj hh))
  | .ok x, .ok y =>
    if h : x = y then .isTrue (by rw [h])
    else .isFalse (fun hh => h (Except.ok.inj hh))
  | .error _, .ok _ => .isFalse (fun hh => Except.noConfusion hh)
  | .ok _, .error _ => .isFalse (fun hh => Except.noConfusion hh)

/-- The class-level configuration of `AuthService` read from the
environment: `JWT_SECRET`, `ACCESS_TOKEN_EXPIRE_SECONDS` (default 900),
`REFRESH_TOKEN_EXPIRE_SECONDS` (default 604800). -/
structure Config where
  secret : String
  accessTTL : Nat
  refreshTTL : Nat
deriving DecidableEq, Repr

/-- The user store: `db.query(User).filter(User.id == user_id).first()`. -/
def findUser (db : List User) (user_id : Int) : Option User :=
  db.find? (fun u => u.id = user_id)

/-- `db.query(User).filter(User.email == email).first()`. -/
def findUserByEmail (db : List User) (email : String) : Option User :=
  db.find? (fun u => u.email = email)

/-- `AuthService.create_tokens(user_id)`: encodes the access token with
`sub = str(user_id)`, `exp = now + ACCESS_TOKEN_EXPIRE_SECONDS`, and the
refresh token with `sub = str(user_id)`,
`exp = now + REFRESH_TOKEN_EXPIRE_SECONDS`, both under `JWT_SECRET`. -/
def create_tokens (cfg : Config) (now : Nat) (user_id : Int) : TokenVal × TokenVal :=
  (.signed ⟨some (toString user_id), now + cfg.accessTTL⟩ cfg.secret,
   .signed ⟨some (toString user_id), now + cfg.refreshTTL⟩ cfg.secret)

/-- The dictionary `validate_and_refresh_token` / `refresh_access_token`
return on success: either just `{"user": user}` (plain validation) or
`{"user": ..., "new_access_token": ..., "new_refresh_token": ...}`
(renewal; the two token strings are freshly encoded JWTs, hence non-empty
and truthy). -/
inductive UserData
  | fresh (user : User)
  | renewed (user : User) (new_access_token new_refresh_token : TokenVal)
deriving DecidableEq, Repr

/-- `AuthService.refresh_access_token(refresh_token)`: decodes the refresh
token (`except jwt.InvalidTokenError: pass` also absorbs
`ExpiredSignatureError`, its subclass), reads `int(payload["sub"])`
(a missing claim raises `KeyError`, a non-numeric one `ValueError`, both
uncaught), looks the user up, and on success returns the user together
with a brand-new pair from `create_tokens`; any caught failure yields
`None`. -/
def refresh_access_token (cfg : Config) (db : List User) (now : Nat)
    (refresh_token : TokenVal) : Except PyError (Option UserData) :=
  match jwtDecode refresh_token cfg.secret now with
  | .error _ => .ok none
  | .ok payload =>
    match payload.sub with
    | none => .error .KeyError
    | some s =>
      match pyInt s with
      | none => .error .ValueError
      | some user_id =>
        match findUser db user_id with
        | none => .ok none
        | some user =>
          let new_tokens := create_tokens cfg now user_id
          .ok (some (.renewed user new_tokens.1 new_tokens.2))

/-- Python truthiness of an optional cookie / header token string:
an absent value and the empty string are falsy, everything else truthy. -/
def pyTruthy : Option TokenVal → Bool
  | none => false
  | some (.malformed s) => !(s = "")
  | some (.signed _ _) => true

/-- `AuthService.validate_and_refresh_token(access_token, refresh_token,
from_cookie)`: decodes the access token; on success reads
`int(payload["sub"])` (uncaught `KeyError` / `ValueError` as above) and
returns the user if the lookup succeeds, `None` otherwise; on
`ExpiredSignatureError`, if `from_cookie and refresh_token` it delegates
to `refresh_access_token`; on any other `InvalidTokenError` it passes;
all remaining paths return `None`. -/
def validate_and_refresh_token (cfg : Config) (db : List User) (now : Nat)
    (access_token : TokenVal) (refresh_token : Option TokenVal)
    (from_cookie : Bool) : Except PyError (Option UserData) :=
  match jwtDecode access_token cfg.secret now with
  | .ok payload =>
    match payload.sub with
    | none => .error .KeyError
    | some s =>
      match pyInt s with
      | none => .error .ValueError
      | some user_id =>
        match findUser db user_id with
        | some user => .ok (some (.fresh user))
        | none => .ok none
  | .error .ExpiredSignature =>
    if from_cookie && pyTruthy refresh_token then
      match refresh_token with
      | some rt => refresh_access_token cfg db now rt
      | none => .ok none
    else .ok none
  | .error .InvalidToken => .ok none

/-- An inbound request as the middleware sees it: the path, the two cookie
values, and the access token extracted from an `Authorization: Bearer`
header (`none` also models `get_header_token`'s empty-string result when
the header is absent or lacks the `Bearer ` marker, which is falsy). -/
structure Request where
  path : String
  cookie_access : Option TokenVal
  cookie_refresh : Option TokenVal
  header_token : Option TokenVal
deriving DecidableEq, Repr

/-- The handler-visible identity attribute together with the cookies the
middleware attaches to the outgoing response. `stateUser = none` means
`request.state.user` was never assigned (the attribute is absent);
`some none` means it was set to Python `None`; `some (some u)` means it
holds the resolved user. -/
structure DispatchState where
  stateUser : Option (Option User)
  newCookies : List (String × TokenVal)
deriving DecidableEq, Repr

/-- The `user_data` the middleware obtains from the service layer:
the access token is the access cookie if truthy, else the header token;
`from_cookie` is the truthiness of the access cookie; `if access_token:
validate... elif refresh_token: refresh... else None`. -/
def middleware_user_data (cfg : Config) (db : List User) (now : Nat)
    (req : Request) : Except PyError (Option UserData) :=
  let access_token : Option TokenVal :=
    if pyTruthy req.cookie_access then req.cookie_access else req.header_token
  if pyTruthy access_token then
    match access_token with
    | some tok =>
      validate_and_refresh_token cfg db now tok req.cookie_refresh
        (pyTruthy req.cookie_access)
    | none => .ok none
  else if pyTruthy req.cookie_refresh then
    match req.cookie_refresh with
    | some rt => refresh_access_token cfg db now rt
    | none => .ok none
  else .ok none

/-- `AuthMiddleware.dispatch`, up to the invocation of the downstream
handler: the logout path bypasses everything (identity attribute left
unset); otherwise `request.state.user = None` and the service is consulted
via `middleware_user_data`. A truthy result sets the identity; if it
carries `new_access_token`, both new cookies are attached to the handler's
response. Uncaught service exceptions propagate (there is no try/except
in the middleware). -/
def dispatchCore (cfg : Config) (db : List User) (now : Nat) (req : Request) :
    Except PyError DispatchState :=
  if req.path = "/api/auth/logout" then
    .ok ⟨none, []⟩
  else
    match middleware_user_data cfg db now req with
    | .error e => .error e
    | .ok (some (.renewed user na nr)) =>
      .ok ⟨some (some user), [("access_token", na), ("refresh_token", nr)]⟩
    | .ok (some (.fresh user)) => .ok ⟨some (some user), []⟩
    | .ok none => .ok ⟨some none, []⟩

/-- The response the middleware hands back to the transport layer: the
downstream handler's own response (the handler is an arbitrary function of
the identity attribute the middleware exposed to it) plus the cookies the
middleware attached to it afterwards. -/
structure MwResponse (H : Type) where
  base : H
  setCookies : List (String × TokenVal)
deriving Repr

/-- Full `AuthMiddleware.dispatch`: the downstream handler is invoked
first (its response `base` exists, built from the identity attribute), and
only then are any new cookies attached to that response. -/
def dispatch {H : Type} (cfg : Config) (db : List User) (now : Nat)
    (handler : Option (Option User) → H) (req : Request) :
    Except PyError (MwResponse H) :=
  match dispatchCore cfg db now req with
  | .error e => .error e
  | .ok st => .ok ⟨handler st.stateUser, st.newCookies⟩

/-! Auth endpoints (src/app/routes/api/auth/auth_api.py) and the passlib
password-hash primitive they call. -/

/-- Whether passlib's `CryptContext(schemes=["bcrypt"])` can identify a
stored string as a bcrypt hash; modular-crypt bcrypt digests carry a
recognised ident marker, and in particular the empty string is never
identified. -/
def bcrypt_identify (h : String) : Bool :=
  match h.data with
  | '$' :: '2' :: 'b' :: '$' :: _ => true
  | _ => false

/-- `AuthService.pwd_context.hash(password)`: an abstract bcrypt digest,
identified by `bcrypt_identify` and verifying exactly against the hashed
password. -/
def pwd_hash (password : String) : String :=
  "$2b$" ++ password

/-- `AuthService.pwd_context.verify(password, h)`: passlib first
identifies the hash string; an unidentifiable hash (e.g. the empty string
stored for Google-provisioned users) raises `UnknownHashError`, a
`ValueError`, which no caller catches; an identified bcrypt hash yields
the boolean comparison. -/
def pwd_verify (password h : String) : Except PyError Bool :=
  if bcrypt_identify h then .ok (h = pwd_hash password)
  else .error .ValueError

/-- `fastapi.HTTPException(status_code, detail)`. -/
structure HTTPException where
  status_code : Nat
  detail : String
deriving DecidableEq, Repr

/-- Successful outcome of an endpoint that issues tokens: the (possibly
updated) user store, the authenticated user, and the cookies set on the
response, in the order the handler sets them. -/
structure AuthOk where
  db : List User
  user : User
  cookies : List (String × TokenVal)
deriving DecidableEq, Repr

/-- Autoincrement primary key the store assigns on insert. -/
def nextId (db : List User) : Int :=
  (db.map (fun u => u.id)).foldr max 0 + 1

/-- `POST /api/auth/login`: look the user up by email; `401 Invalid
credentials` if absent, otherwise passlib verification (whose
`ValueError` on an unidentifiable stored hash is uncaught and modelled in
the outer `Except PyError`); `401` again on mismatch; on success
`create_tokens` and both cookies set. -/
def login (cfg : Config) (db : List User) (now : Nat)
    (email password : String) :
    Except PyError (Except HTTPException AuthOk) :=
  match findUserByEmail db email with
  | none => .ok (.error ⟨401, "Invalid credentials"⟩)
  | some user =>
    match pwd_verify password user.hashed_password with
    | .error e => .error e
    | .ok false => .ok (.error ⟨401, "Invalid credentials"⟩)
    | .ok true =>
      let tokens := create_tokens cfg now user.id
      .ok (.ok ⟨db, user,
        [("access_token", tokens.1), ("refresh_token", tokens.2)]⟩)

/-- `POST /api/auth/register`: `400 Email already registered` on a
duplicate email; otherwise insert a LOCAL user with the bcrypt hash of the
password, then `create_tokens` and both cookies set. -/
def register (cfg : Config) (db : List User) (now : Nat)
    (name email password : String) :
    Except HTTPException AuthOk :=
  match findUserByEmail db email with
  | some _ => .error ⟨400, "Email already registered"⟩
  | none =>
    let user : User :=
      ⟨nextId db, name, email, pwd_hash password, true, .LOCAL, .USER, none⟩
    let tokens := create_tokens cfg now user.id
    .ok ⟨db ++ [user], user,
      [("access_token", tokens.1), ("refresh_token", tokens.2)]⟩

/-- The profile the Google OAuth exchange returns on success. -/
structure GoogleUserInfo where
  email : String
  name : String
  picture : Option String
deriving DecidableEq, Repr

/-- `GET /api/auth/google/callback`, success path after the provider
exchange returned `user_info`: create the user with an empty
`hashed_password` if the email is new, otherwise update the stored
profile picture when the provider sent a different one; then
`create_tokens` and both cookies set on the redirect response. -/
def google_callback (cfg : Config) (db : List User) (now : Nat)
    (user_info : GoogleUserInfo) : AuthOk :=
  match findUserByEmail db user_info.email with
  | none =>
    let user : User :=
      ⟨nextId db, user_info.name, user_info.email, "", true, .GOOGLE, .USER,
        user_info.picture⟩
    let tokens := create_tokens cfg now user.id
    ⟨db ++ [user], user,
      [("access_token", tokens.1), ("refresh_token", tokens.2)]⟩
  | some user =>
    let user' :=
      match user_info.picture with
      | some pic => if user.profile_picture ≠ some pic
          then { user with profile_picture := some pic } else user
      | none => user
    let db' := db.map (fun u => if u.id = user.id then user' else u)
    let tokens := create_tokens cfg now user'.id
    ⟨db', user',
      [("access_token", tokens.1), ("refresh_token", tokens.2)]⟩

/-- A candidate credential is harmless for the `int(payload["sub"])` line:
either it is not a JWT that decodes successfully under the service secret
at time `now` (malformed, foreign-signed, or expired), or its `sub` claim
is present and numeric. Tokens the service itself issues always satisfy
this; a forged well-signed token need not. -/
def numericSub (cfg : Config) (now : Nat) : Option TokenVal → Bool
  | none => true
  | some (.malformed _) => true
  | some (.signed p k) =>
    if k = cfg.secret then
      if p.exp ≤ now then true
      else
        match p.sub with
        | some s => (pyInt s).isSome
        | none => false
    else true

/-- The response body of `GET /api/auth/me`. -/
structure UserResponse where
  id : Int
  name : String
  email : String
  profile_picture : Option String
deriving DecidableEq, Repr

/-- `GET /api/auth/me` (`get_current_user`): `401 Not authenticated` when
the `request.state.user` attribute is absent (`hasattr` is false) or
falsy (`None`); otherwise the user summary. -/
def get_current_user (stateUser : Option (Option User)) :
    Except HTTPException UserResponse :=
  match stateUser with
  | none => .error ⟨401, "Not authenticated"⟩
  | some none => .error ⟨401, "Not authenticated"⟩
  | some (some u) => .ok ⟨u.id, u.name, u.email, u.profile_picture⟩

/-! Theorems. -/

/-- C4: for every subject and positive configured ttl, decoding a token
issued by `create_tokens` (access or refresh) under the service secret at
a time strictly before issuance + ttl succeeds and returns the same
subject `str(user_id)`, and decoding it at or after issuance + ttl fails
with `ExpiredSignatureError` (PyJWT treats `exp <= now` as expired). -/
theorem decode_create_tokens_roundtrip (cfg : Config) (now t : Nat)
    (user_id : Int) (hA : 0 < cfg.accessTTL) (hR : 0 < cfg.refreshTTL) :
    (t < now + cfg.accessTTL →
      jwtDecode (create_tokens cfg now user_id).1 cfg.secret t =
        .ok ⟨some (toString user_id), now + cfg.accessTTL⟩) ∧
    (now + cfg.accessTTL ≤ t →
      jwtDecode (create_tokens cfg now user_id).1 cfg.secret t =
        .error .ExpiredSignature) ∧
    (t < now + cfg.refreshTTL →
      jwtDecode (create_tokens cfg now user_id).2 cfg.secret t =
        .ok ⟨some (toString user_id), now + cfg.refreshTTL⟩) ∧
    (now + cfg.refreshTTL ≤ t →
      jwtDecode (create_tokens cfg now user_id).2 cfg.secret t =
        .error .ExpiredSignature) := by
  refine ⟨fun h => ?_, fun h => ?_, fun h => ?_, fun h => ?_⟩
  · have hlt : ¬ (now + cfg.accessTTL ≤ t) := by omega
    simp [create_tokens, jwtDecode, hlt]
  · simp [create_tokens, jwtDecode, h]
  · have hlt : ¬ (now + cfg.refreshTTL ≤ t) := by omega
    simp [create_tokens, jwtDecode, hlt]
  · simp [create_tokens, jwtDecode, h]

/-- Witness for C4 at a concrete configuration, subject and clock. -/
theorem decode_create_tokens_roundtrip_witness :
    jwtDecode (create_tokens ⟨"s", 900, 604800⟩ 0 7).1 "s" 10 =
      .ok ⟨some "7", 900⟩ ∧
    jwtDecode (create_tokens ⟨"s", 900, 604800⟩ 0 7).1 "s" 900 =
      .error .ExpiredSignature :=
  ⟨(decode_create_tokens_roundtrip ⟨"s", 900, 604800⟩ 0 10 7 (by decide)
      (by decide)).1 (by decide),
   (decode_create_tokens_roundtrip ⟨"s", 900, 604800⟩ 0 900 7 (by decide)
      (by decide)).2.1 (by decide)⟩

/-- C5: a refresh token past its expiry makes `refresh_access_token`
return `None` (no user, no new tokens), whatever its other contents — if
it is signed with the service secret the decoder raises
`ExpiredSignatureError`, otherwise `InvalidSignatureError`; both are
subclasses of `InvalidTokenError` and absorbed into the `None` path
before `create_tokens` is ever reached. -/
theorem refresh_expired_yields_none (cfg : Config) (db : List User)
    (now : Nat) (p : Payload) (k : String) (h : p.exp ≤ now) :
    refresh_access_token cfg db now (.signed p k) = .ok none := by
  unfold refresh_access_token jwtDecode
  by_cases hk : k = cfg.secret <;> simp [hk, h]

/-- Witness for C5 at a concrete expired refresh token. -/
theorem refresh_expired_yields_none_witness :
    refresh_access_token ⟨"s", 900, 604800⟩ [] 1000
      (.signed ⟨some "1", 1000⟩ "s") = .ok none :=
  refresh_expired_yields_none ⟨"s", 900, 604800⟩ [] 1000
    ⟨some "1", 1000⟩ "s" (by decide)

/-- C8: a token signed under any secret other than the configured
`JWT_SECRET` fails validation as `InvalidTokenError` regardless of its
payload (signature is checked before any claim), so
`validate_and_refresh_token` returns `None` for any refresh token and
`from_cookie` flag, and a request presenting it as the access cookie
proceeds unauthenticated with no new cookies. -/
theorem wrong_secret_always_invalid (cfg : Config) (db : List User)
    (now : Nat) (p : Payload) (k : String) (hk : k ≠ cfg.secret)
    (rt : Option TokenVal) (fc : Bool) (req : Request)
    (hpath : req.path ≠ "/api/auth/logout")
    (hacc : req.cookie_access = some (.signed p k)) :
    validate_and_refresh_token cfg db now (.signed p k) rt fc = .ok none ∧
    dispatchCore cfg db now req = .ok ⟨some none, []⟩ := by
  have hval : ∀ rt' fc',
      validate_and_refresh_token cfg db now (.signed p k) rt' fc' = .ok none := by
    intro rt' fc'
    unfold validate_and_refresh_token jwtDecode
    simp [hk]
  refine ⟨hval rt fc, ?_⟩
  have hmud : middleware_user_data cfg db now req = .ok none := by
    simp only [middleware_user_data, hacc, pyTruthy]
    simp only [if_true]
    exact hval _ _
  simp [dispatchCore, hpath, hmud]

/-- Witness for C8 at a concrete foreign-signed token and request. -/
theorem wrong_secret_always_invalid_witness :
    validate_and_refresh_token ⟨"s", 900, 604800⟩ [] 50
      (.signed ⟨some "1", 99999⟩ "evil") none false = .ok none ∧
    dispatchCore ⟨"s", 900, 604800⟩ [] 50
      ⟨"/", some (.signed ⟨some "1", 99999⟩ "evil"), none, none⟩ =
      .ok ⟨some none, []⟩ :=
  wrong_secret_always_invalid ⟨"s", 900, 604800⟩ [] 50 ⟨some "1", 99999⟩
    "evil" (by decide) none false
    ⟨"/", some (.signed ⟨some "1", 99999⟩ "evil"), none, none⟩
    (by decide) rfl

/-- C2: a request whose only access token is an expired one supplied via
the `Authorization: Bearer` header (no access cookie) never triggers a
refresh — `from_cookie` is the truthiness of the access cookie, which is
absent — so even with a refresh cookie present the request proceeds with
`request.state.user = None` and no new cookies. -/
theorem header_expired_token_no_refresh (cfg : Config) (db : List User)
    (now : Nat) (p : Payload) (req : Request)
    (hpath : req.path ≠ "/api/auth/logout")
    (hnocookie : req.cookie_access = none)
    (hhdr : req.header_token = some (.signed p cfg.secret))
    (hexp : p.exp ≤ now) :
    dispatchCore cfg db now req = .ok ⟨some none, []⟩ := by
  have hmud : middleware_user_data cfg db now req = .ok none := by
    simp only [middleware_user_data, hnocookie, hhdr, pyTruthy]
    simp [validate_and_refresh_token, jwtDecode, hexp]
  simp [dispatchCore, hpath, hmud]

/-- Witness for C2: expired header token, valid refresh cookie, yet
unauthenticated and cookie-free. -/
theorem header_expired_token_no_refresh_witness :
    dispatchCore ⟨"s", 900, 604800⟩
      [⟨1, "a", "a@x.com", "$2b$p", true, .LOCAL, .USER, none⟩] 1000
      ⟨"/", none, some (.signed ⟨some "1", 9000⟩ "s"),
        some (.signed ⟨some "1", 900⟩ "s")⟩ = .ok ⟨some none, []⟩ :=
  header_expired_token_no_refresh ⟨"s", 900, 604800⟩
    [⟨1, "a", "a@x.com", "$2b$p", true, .LOCAL, .USER, none⟩] 1000
    ⟨some "1", 900⟩
    ⟨"/", none, some (.signed ⟨some "1", 9000⟩ "s"),
      some (.signed ⟨some "1", 900⟩ "s")⟩
    (by decide) rfl rfl (by decide)

/-- C9: a well-signed, unexpired access token whose numeric subject
matches no stored user is an authentication failure, not a crash: the
service returns `None` without attempting a refresh (the refresh branch
is reachable only from `ExpiredSignatureError`), and the request -
even one carrying a valid refresh cookie - proceeds unauthenticated with
no new cookies. -/
theorem unknown_subject_unauthenticated (cfg : Config) (db : List User)
    (now : Nat) (s : String) (e : Nat) (uid : Int)
    (he : now < e) (hs : pyInt s = some uid) (hu : findUser db uid = none)
    (rt : Option TokenVal) (fc : Bool) (req : Request)
    (hpath : req.path ≠ "/api/auth/logout")
    (hacc : req.cookie_access = some (.signed ⟨some s, e⟩ cfg.secret)) :
    validate_and_refresh_token cfg db now (.signed ⟨some s, e⟩ cfg.secret)
      rt fc = .ok none ∧
    dispatchCore cfg db now req = .ok ⟨some none, []⟩ := by
  have hlt : ¬ (e ≤ now) := by omega
  have hval : ∀ rt' fc',
      validate_and_refresh_token cfg db now (.signed ⟨some s, e⟩ cfg.secret)
        rt' fc' = .ok none := by
    intro rt' fc'
    simp [validate_and_refresh_token, jwtDecode, hlt, hs, hu]
  refine ⟨hval rt fc, ?_⟩
  have hmud : middleware_user_data cfg db now req = .ok none := by
    simp only [middleware_user_data, hacc, pyTruthy]
    simp only [if_true]
    exact hval _ _
  simp [dispatchCore, hpath, hmud]

/-- Witness for C9: token for the deleted user 2, live refresh cookie for
user 2 as well, store holding only user 1. -/
theorem unknown_subject_unauthenticated_witness :
    dispatchCore ⟨"s", 900, 604800⟩
      [⟨1, "a", "a@x.com", "$2b$p", true, .LOCAL, .USER, none⟩] 1000
      ⟨"/", some (.signed ⟨some "2", 5000⟩ "s"),
        some (.signed ⟨some "2", 9000⟩ "s"), none⟩ = .ok ⟨some none, []⟩ :=
  (unknown_subject_unauthenticated ⟨"s", 900, 604800⟩
    [⟨1, "a", "a@x.com", "$2b$p", true, .LOCAL, .USER, none⟩] 1000
    "2" 5000 2 (by decide) (by decide) (by decide)
    (some (.signed ⟨some "2", 9000⟩ "s")) true
    ⟨"/", some (.signed ⟨some "2", 5000⟩ "s"),
      some (.signed ⟨some "2", 9000⟩ "s"), none⟩
    (by decide) rfl).2

/-- C1: with an expired access cookie and a valid refresh cookie (well
signed, unexpired, numeric subject resolving to stored user `u`), the
middleware resolves the identity to `u` and renews: the downstream
handler runs first, on the resolved identity, and the response it
produced is returned with the two freshly issued cookies — the new
access and refresh tokens of one `create_tokens` call at the current
clock — attached afterwards. -/
theorem expired_cookie_valid_refresh_renews {H : Type} (cfg : Config)
    (db : List User) (now : Nat) (handler : Option (Option User) → H)
    (pa : Payload) (s : String) (e : Nat) (uid : Int) (u : User)
    (req : Request)
    (hpath : req.path ≠ "/api/auth/logout")
    (hacc : req.cookie_access = some (.signed pa cfg.secret))
    (haexp : pa.exp ≤ now)
    (href : req.cookie_refresh = some (.signed ⟨some s, e⟩ cfg.secret))
    (hrexp : now < e)
    (hs : pyInt s = some uid)
    (hu : findUser db uid = some u) :
    dispatch cfg db now handler req =
      .ok ⟨handler (some (some u)),
        [("access_token",
            .signed ⟨some (toString uid), now + cfg.accessTTL⟩ cfg.secret),
         ("refresh_token",
            .signed ⟨some (toString uid), now + cfg.refreshTTL⟩ cfg.secret)]⟩ := by
  have hlt : ¬ (e ≤ now) := by omega
  have hcore : dispatchCore cfg db now req =
      .ok ⟨some (some u),
        [("access_token",
            .signed ⟨some (toString uid), now + cfg.accessTTL⟩ cfg.secret),
         ("refresh_token",
            .signed ⟨some (toString uid), now + cfg.refreshTTL⟩ cfg.secret)]⟩ := by
    have hmud : middleware_user_data cfg db now req =
        .ok (some (.renewed u
          (.signed ⟨some (toString uid), now + cfg.accessTTL⟩ cfg.secret)
          (.signed ⟨some (toString uid), now + cfg.refreshTTL⟩ cfg.secret))) := by
      simp only [middleware_user_data, hacc, href, pyTruthy]
      simp [validate_and_refresh_token, jwtDecode, haexp, pyTruthy,
        refresh_access_token, hlt, hs, hu, create_tokens]
    simp [dispatchCore, hpath, hmud]
  simp [dispatch, hcore]

/-- Witness for C1 at a concrete store, clock and request; the handler
reports the identity it was invoked with. -/
theorem expired_cookie_valid_refresh_renews_witness :
    dispatch ⟨"s", 900, 604800⟩
      [⟨1, "a", "a@x.com", "$2b$p", true, .LOCAL, .USER, none⟩] 1000
      (fun st => st) 
      ⟨"/", some (.signed ⟨some "1", 900⟩ "s"),
        some (.signed ⟨some "1", 9000⟩ "s"), none⟩ =
      .ok ⟨some (some ⟨1, "a", "a@x.com", "$2b$p", true, .LOCAL, .USER, none⟩),
        [("access_token", .signed ⟨some "1", 1900⟩ "s"),
         ("refresh_token", .signed ⟨some "1", 605800⟩ "s")]⟩ :=
  expired_cookie_valid_refresh_renews ⟨"s", 900, 604800⟩
    [⟨1, "a", "a@x.com", "$2b$p", true, .LOCAL, .USER, none⟩] 1000
    (fun st => st) ⟨some "1", 900⟩ "1" 9000 1
    ⟨1, "a", "a@x.com", "$2b$p", true, .LOCAL, .USER, none⟩
    ⟨"/", some (.signed ⟨some "1", 900⟩ "s"),
      some (.signed ⟨some "1", 9000⟩ "s"), none⟩
    (by decide) rfl (by decide) rfl (by decide) (by decide) (by decide)

/-- C10: whenever the middleware completes without an exception, the
identity attribute is set (to `None` or to the resolved user) for every
path except `/api/auth/logout`, while the logout bypass leaves the
attribute entirely unset; and the `/api/auth/me` handler rejects with
`401 Not authenticated` exactly when the attribute is absent or `None`,
guarding on presence and value alike. -/
theorem state_user_before_handler_and_me_guard :
    (∀ (cfg : Config) (db : List User) (now : Nat) (req : Request)
        (st : DispatchState), dispatchCore cfg db now req = .ok st →
      (req.path ≠ "/api/auth/logout" → st.stateUser.isSome = true) ∧
      (req.path = "/api/auth/logout" → st.stateUser = none)) ∧
    (∀ stateUser : Option (Option User),
      get_current_user stateUser = .error ⟨401, "Not authenticated"⟩ ↔
        (stateUser = none ∨ stateUser = some none)) := by
  constructor
  · intro cfg db now req st h
    by_cases hp : req.path = "/api/auth/logout"
    · rw [dispatchCore, if_pos hp] at h
      cases h
      exact ⟨fun hne => absurd hp hne, fun _ => rfl⟩
    · refine ⟨fun _ => ?_, fun heq => absurd heq hp⟩
      simp only [dispatchCore, if_neg hp] at h
      split at h
      · cases h
      · cases h; rfl
      · cases h; rfl
      · cases h; rfl
  · intro stateUser
    match stateUser with
    | none => simp [get_current_user]
    | some none => simp [get_current_user]
    | some (some u) => simp [get_current_user]

/-- Witness for C10: an unauthenticated request to a non-logout path gets
the attribute set (to `None`), and `/api/auth/me` then rejects it. -/
theorem state_user_before_handler_and_me_guard_witness :
    (DispatchState.mk (some none) []).stateUser.isSome = true ∧
    get_current_user (some none) = .error ⟨401, "Not authenticated"⟩ :=
  ⟨(state_user_before_handler_and_me_guard.1 ⟨"s", 900, 604800⟩ [] 0
      ⟨"/", none, none, none⟩ ⟨some none, []⟩ (by decide)).1 (by decide),
   (state_user_before_handler_and_me_guard.2 (some none)).mpr (Or.inr rfl)⟩

/-- C7: tokens are only ever issued in pairs sharing one subject.
`create_tokens` produces the access and the refresh token in a single
call, both carrying `sub = str(user_id)`; a successful refresh returns
both tokens of one fresh `create_tokens` pair (full rotation, not just
the access token); and register, login and the OAuth callback each set
exactly the two cookies of one `create_tokens` call for the
authenticated user. -/
theorem pair_issuance_shared_subject (cfg : Config) (db : List User)
    (now : Nat) (rt : TokenVal) (name email password : String)
    (info : GoogleUserInfo) :
    (∀ user_id : Int,
      (create_tokens cfg now user_id).1 =
        .signed ⟨some (toString user_id), now + cfg.accessTTL⟩ cfg.secret ∧
      (create_tokens cfg now user_id).2 =
        .signed ⟨some (toString user_id), now + cfg.refreshTTL⟩ cfg.secret) ∧
    (∀ u na nr,
      refresh_access_token cfg db now rt = .ok (some (.renewed u na nr)) →
      ∃ user_id, na = (create_tokens cfg now user_id).1 ∧
        nr = (create_tokens cfg now user_id).2) ∧
    (∀ ok, register cfg db now name email password = .ok ok →
      ok.cookies = [("access_token", (create_tokens cfg now ok.user.id).1),
                    ("refresh_token", (create_tokens cfg now ok.user.id).2)]) ∧
    (∀ ok, login cfg db now email password = .ok (.ok ok) →
      ok.cookies = [("access_token", (create_tokens cfg now ok.user.id).1),
                    ("refresh_token", (create_tokens cfg now ok.user.id).2)]) ∧
    ((google_callback cfg db now info).cookies =
      [("access_token",
          (create_tokens cfg now (google_callback cfg db now info).user.id).1),
       ("refresh_token",
          (create_tokens cfg now (google_callback cfg db now info).user.id).2)]) := by
  refine ⟨fun user_id => ⟨rfl, rfl⟩, ?_, ?_, ?_, ?_⟩
  · intro u na nr h
    cases hd : jwtDecode rt cfg.secret now with
    | error e => simp [refresh_access_token, hd] at h
    | ok payload =>
      cases hsub : payload.sub with
      | none => simp [refresh_access_token, hd, hsub] at h
      | some s =>
        cases hpi : pyInt s with
        | none => simp [refresh_access_token, hd, hsub, hpi] at h
        | some user_id =>
          cases hf : findUser db user_id with
          | none => simp [refresh_access_token, hd, hsub, hpi, hf] at h
          | some user =>
            simp only [refresh_access_token, hd, hsub, hpi, hf,
              Except.ok.injEq, Option.some.injEq, UserData.renewed.injEq] at h
            exact ⟨user_id, h.2.1.symm, h.2.2.symm⟩
  · intro ok h
    cases hf : findUserByEmail db email with
    | some u => simp [register, hf] at h
    | none =>
      simp only [register, hf, Except.ok.injEq] at h
      cases h
      rfl
  · intro ok h
    cases hf : findUserByEmail db email with
    | none => simp [login, hf] at h
    | some user =>
      cases hv : pwd_verify password user.hashed_password with
      | error e => simp [login, hf, hv] at h
      | ok b =>
        cases b with
        | false => simp [login, hf, hv] at h
        | true =>
          simp only [login, hf, hv, Except.ok.injEq] at h
          cases h
          rfl
  · cases hf : findUserByEmail db info.email with
    | none => simp [google_callback, hf]
    | some user => simp [google_callback, hf]

/-- Witness for C7: a concrete successful refresh hands back both tokens
of one freshly issued pair. -/
theorem pair_issuance_shared_subject_witness :
    ∃ user_id,
      (TokenVal.signed ⟨some "1", 1900⟩ "s" : TokenVal) =
        (create_tokens ⟨"s", 900, 604800⟩ 1000 user_id).1 ∧
      (TokenVal.signed ⟨some "1", 605800⟩ "s" : TokenVal) =
        (create_tokens ⟨"s", 900, 604800⟩ 1000 user_id).2 :=
  (pair_issuance_shared_subject ⟨"s", 900, 604800⟩
    [⟨1, "a", "a@x.com", "$2b$p", true, .LOCAL, .USER, none⟩] 1000
    (.signed ⟨some "1", 9000⟩ "s") "a" "a@x.com" "p"
    ⟨"g@x.com", "g", none⟩).2.1
    ⟨1, "a", "a@x.com", "$2b$p", true, .LOCAL, .USER, none⟩
    (.signed ⟨some "1", 1900⟩ "s") (.signed ⟨some "1", 605800⟩ "s")
    (by decide)

/-- Helper: `refresh_access_token` raises no exception on a credential
whose successfully decoding payload has a numeric subject. -/
theorem refresh_ok_of_numericSub (cfg : Config) (db : List User)
    (now : Nat) (rt : TokenVal)
    (h : numericSub cfg now (some rt) = true) :
    ∃ o, refresh_access_token cfg db now rt = .ok o := by
  cases rt with
  | malformed s => exact ⟨none, by simp [refresh_access_token, jwtDecode]⟩
  | signed p k =>
    by_cases hk : k = cfg.secret
    · by_cases he : p.exp ≤ now
      · exact ⟨none, by simp [refresh_access_token, jwtDecode, hk, he]⟩
      · simp only [numericSub, if_pos hk, if_neg he] at h
        cases hsub : p.sub with
        | none => simp only [hsub] at h; cases h
        | some s =>
          simp only [hsub] at h
          obtain ⟨uid, hpi⟩ := Option.isSome_iff_exists.mp h
          cases hf : findUser db uid with
          | none =>
            exact ⟨none,
              by simp [refresh_access_token, jwtDecode, hk, he, hsub, hpi, hf]⟩
          | some user =>
            exact ⟨some (.renewed user (create_tokens cfg now uid).1
                (create_tokens cfg now uid).2),
              by simp [refresh_access_token, jwtDecode, hk, he, hsub, hpi, hf]⟩
    · exact ⟨none, by simp [refresh_access_token, jwtDecode, hk]⟩

/-- Helper: `validate_and_refresh_token` raises no exception when both
the access credential and the refresh credential it may fall back to have
numeric subjects whenever they decode. -/
theorem validate_ok_of_numericSub (cfg : Config) (db : List User)
    (now : Nat) (tok : TokenVal) (rt : Option TokenVal) (fc : Bool)
    (h1 : numericSub cfg now (some tok) = true)
    (h2 : numericSub cfg now rt = true) :
    ∃ o, validate_and_refresh_token cfg db now tok rt fc = .ok o := by
  cases tok with
  | malformed s => exact ⟨none, by simp [validate_and_refresh_token, jwtDecode]⟩
  | signed p k =>
    by_cases hk : k = cfg.secret
    · by_cases he : p.exp ≤ now
      · by_cases hcond : (fc && pyTruthy rt) = true
        · cases rt with
          | none => simp [pyTruthy] at hcond
          | some rtv =>
            obtain ⟨o, ho⟩ := refresh_ok_of_numericSub cfg db now rtv h2
            exact ⟨o,
              by simp [validate_and_refresh_token, jwtDecode, hk, he, hcond, ho]⟩
        · exact ⟨none,
            by simp [validate_and_refresh_token, jwtDecode, hk, he, hcond]⟩
      · simp only [numericSub, if_pos hk, if_neg he] at h1
        cases hsub : p.sub with
        | none => simp only [hsub] at h1; cases h1
        | some s =>
          simp only [hsub] at h1
          obtain ⟨uid, hpi⟩ := Option.isSome_iff_exists.mp h1
          cases hf : findUser db uid with
          | none =>
            exact ⟨none, by
              simp [validate_and_refresh_token, jwtDecode, hk, he, hsub, hpi, hf]⟩
          | some user =>
            exact ⟨some (.fresh user), by
              simp [validate_and_refresh_token, jwtDecode, hk, he, hsub, hpi, hf]⟩
    · exact ⟨none, by simp [validate_and_refresh_token, jwtDecode, hk]⟩

/-- Helper: under numeric-subject credentials the middleware's service
call returns without an exception. -/
theorem middleware_user_data_ok (cfg : Config) (db : List User) (now : Nat)
    (req : Request)
    (h1 : numericSub cfg now req.cookie_access = true)
    (h2 : numericSub cfg now req.cookie_refresh = true)
    (h3 : numericSub cfg now req.header_token = true) :
    ∃ o, middleware_user_data cfg db now req = .ok o := by
  unfold middleware_user_data
  by_cases hc : pyTruthy req.cookie_access = true
  · cases hca : req.cookie_access with
    | none => rw [hca] at hc; simp [pyTruthy] at hc
    | some tok =>
      rw [hca] at h1 hc
      obtain ⟨o, ho⟩ := validate_ok_of_numericSub cfg db now tok
        req.cookie_refresh true h1 h2
      refine ⟨o, ?_⟩
      simp [hca, hc, ho]
  · have hc' : pyTruthy req.cookie_access = false := by
      cases hb : pyTruthy req.cookie_access
      · rfl
      · exact absurd hb hc
    by_cases hh : pyTruthy req.header_token = true
    · cases hhd : req.header_token with
      | none => rw [hhd] at hh; simp [pyTruthy] at hh
      | some tok =>
        rw [hhd] at h3 hh
        obtain ⟨o, ho⟩ := validate_ok_of_numericSub cfg db now tok
          req.cookie_refresh false h3 h2
        refine ⟨o, ?_⟩
        simp [hhd, hc', hh, ho]
    · have hh' : pyTruthy req.header_token = false := by
        cases hb : pyTruthy req.header_token
        · rfl
        · exact absurd hb hh
      by_cases hr : pyTruthy req.cookie_refresh = true
      · cases hrc : req.cookie_refresh with
        | none => rw [hrc] at hr; simp [pyTruthy] at hr
        | some rtv =>
          rw [hrc] at h2 hr
          obtain ⟨o, ho⟩ := refresh_ok_of_numericSub cfg db now rtv h2
          refine ⟨o, ?_⟩
          simp [hrc, hc', hh', hr, ho]
      · have hr' : pyTruthy req.cookie_refresh = false := by
          cases hb : pyTruthy req.cookie_refresh
          · rfl
          · exact absurd hb hr
        exact ⟨none, by simp [hc', hh', hr']⟩

/-- C3 (amended): the middleware lets no exception escape on any request
all of whose credentials are harmless for the subject-parsing line — that
is, every presented token either fails decoding (malformed,
foreign-signed or expired) or carries a numeric string `sub` claim. The
carve-out is forced: a well-signed, unexpired token with a missing or
non-numeric `sub` makes `int(payload["sub"])` raise an uncaught
`KeyError` / `ValueError` (see the counterexample). -/
theorem no_exception_on_numeric_subjects (cfg : Config) (db : List User)
    (now : Nat) (req : Request)
    (h1 : numericSub cfg now req.cookie_access = true)
    (h2 : numericSub cfg now req.cookie_refresh = true)
    (h3 : numericSub cfg now req.header_token = true) :
    ∃ st, dispatchCore cfg db now req = .ok st := by
  by_cases hp : req.path = "/api/auth/logout"
  · exact ⟨⟨none, []⟩, by simp [dispatchCore, hp]⟩
  · obtain ⟨o, ho⟩ := middleware_user_data_ok cfg db now req h1 h2 h3
    cases o with
    | none => exact ⟨⟨some none, []⟩, by simp [dispatchCore, hp, ho]⟩
    | some ud =>
      cases ud with
      | fresh u => exact ⟨⟨some (some u), []⟩, by simp [dispatchCore, hp, ho]⟩
      | renewed u na nr =>
        exact ⟨⟨some (some u), [("access_token", na), ("refresh_token", nr)]⟩,
          by simp [dispatchCore, hp, ho]⟩

/-- Witness for the amended C3: a request with an expired access cookie,
a malformed refresh cookie and no header completes without an
exception. -/
theorem no_exception_on_numeric_subjects_witness :
    ∃ st, dispatchCore ⟨"s", 900, 604800⟩ [] 1000
      ⟨"/", some (.signed ⟨none, 900⟩ "s"), some (.malformed "junk"), none⟩ =
      .ok st :=
  no_exception_on_numeric_subjects ⟨"s", 900, 604800⟩ [] 1000
    ⟨"/", some (.signed ⟨none, 900⟩ "s"), some (.malformed "junk"), none⟩
    (by decide) (by decide) (by decide)

/-- Counterexample to C3 as stated: a request whose access cookie is a
well-signed, unexpired token with the non-numeric subject "abc" makes the
middleware propagate an uncaught `ValueError` from `int(payload["sub"])`
to the client instead of degrading to unauthenticated. -/
theorem uncaught_value_error_escapes_middleware :
    dispatchCore ⟨"s", 900, 604800⟩
      [⟨1, "a", "a@x.com", "$2b$p", true, .LOCAL, .USER, none⟩] 1000
      ⟨"/", some (.signed ⟨some "abc", 2000⟩ "s"), none, none⟩ =
      .error .ValueError := by
  decide

/-- C6 (amended): a login for an unknown email, or for a stored user
whose recognisable bcrypt hash does not match the password, is rejected
with `401 Invalid credentials` and issues no tokens and sets no cookies;
but for a user whose stored hash is not a recognisable bcrypt digest —
in particular the empty string the OAuth flow stores — the passlib
verification raises an uncaught `UnknownHashError` (`ValueError`), so the
request fails with a server error rather than Unauthorized (still
issuing no tokens). -/
theorem login_rejects_bad_credentials (cfg : Config) (db : List User)
    (now : Nat) (email password : String) :
    (findUserByEmail db email = none →
      login cfg db now email password =
        .ok (.error ⟨401, "Invalid credentials"⟩)) ∧
    (∀ u, findUserByEmail db email = some u →
      bcrypt_identify u.hashed_password = true →
      u.hashed_password ≠ pwd_hash password →
      login cfg db now email password =
        .ok (.error ⟨401, "Invalid credentials"⟩)) ∧
    (∀ u, findUserByEmail db email = some u →
      bcrypt_identify u.hashed_password = false →
      login cfg db now email password = .error .ValueError) := by
  refine ⟨fun h => by simp [login, h], fun u hu hid hne => ?_,
    fun u hu hid => ?_⟩
  · simp [login, hu, pwd_verify, hid, hne]
  · simp [login, hu, pwd_verify, hid]

/-- Witness for the amended C6: wrong password against a stored bcrypt
hash yields the 401, with no tokens in the result. -/
theorem login_rejects_bad_credentials_witness :
    login ⟨"s", 900, 604800⟩
      [⟨1, "a", "a@x.com", pwd_hash "p", true, .LOCAL, .USER, none⟩] 0
      "a@x.com" "wrong" = .ok (.error ⟨401, "Invalid credentials"⟩) :=
  (login_rejects_bad_credentials ⟨"s", 900, 604800⟩
    [⟨1, "a", "a@x.com", pwd_hash "p", true, .LOCAL, .USER, none⟩] 0
    "a@x.com" "wrong").2.1
    ⟨1, "a", "a@x.com", pwd_hash "p", true, .LOCAL, .USER, none⟩
    (by decide) (by decide) (by decide)

/-- Counterexample to C6 as stated: a user provisioned by the Google
OAuth callback is stored with an empty password hash, and a later
password login for that email makes passlib raise `UnknownHashError`
(a `ValueError`), a server error, not the claimed 401 Unauthorized. -/
theorem login_oauth_user_raises_value_error :
    (google_callback ⟨"s", 900, 604800⟩ [] 0
        ⟨"g@x.com", "g", none⟩).user.hashed_password = "" ∧
    login ⟨"s", 900, 604800⟩
      (google_callback ⟨"s", 900, 604800⟩ [] 0 ⟨"g@x.com", "g", none⟩).db 0
      "g@x.com" "guess" = .error .ValueError :=
  ⟨rfl, by decide⟩
